import Mathlib

/-!
Verification of the digital-dojo reward ledger and wager engine
(`src/functions/index.js`), embedded shallowly in Lean.

Modelling conventions:
- Timestamps are milliseconds since the epoch, as `Int` (`Date.getTime()` /
  `Timestamp.toMillis()`).  `new Date(y, m, d, hours)` truncates the current
  time down to the hour boundary; `new Date(y, m, d, hours - 1)` is one hour
  earlier (JS `Date` normalises an hour of `-1` into the previous day).  Both
  are modelled over epoch milliseconds by `hourStart`, taking the local
  timezone offset to be a whole number of hours so that hour buckets are the
  multiples of 3600000.
- `Math.random()` draws are explicit parameters: rationals `r` with
  `0 ≤ r ∧ r < 1`.  The literals `0.60` and `0.90` are modelled as the
  rationals `60/100` and `90/100`.
- A Firestore `db.runTransaction` callback buffers its `transaction.set` /
  `transaction.update` calls and commits them only when the callback returns
  normally; when the callback throws, the transaction is rolled back and none
  of the buffered writes are applied.  This documented behaviour of
  `runTransaction` is captured by `TxOutcome` / `applyTx`: a thrown
  `HttpsError` carries no writes.
- The Helius `getAssetsByOwner` call requests `page: 1, limit: 1000`, so the
  response holds at most the first 1000 of the owner's assets; the oracle
  model takes the owner's full asset list and a flag covering every
  transport/HTTP/JSON-level failure (all of which the source maps to a count
  of 0).
-/

namespace DigitalDojo

/-- Start of the hour bucket containing epoch-millisecond time `t`:
`new Date(now.getFullYear(), now.getMonth(), now.getDate(), now.getHours())`
expressed over epoch milliseconds. -/
def hourStart (t : Int) : Int := 3600000 * (t.fdiv 3600000)

/-- A user document in the `users` collection.  `tetoBalance` is an `Int`
(both readers default a missing field to 0, so a freshly merged document
without the field behaves as balance 0, which is how creation is modelled). -/
structure UserRecord where
  walletAddress : String
  nftCount : Nat
  tetoBalance : Int
  lastClaimTimestamp : Int
deriving Repr, DecidableEq

/-- The typed failures (`functions.https.HttpsError`) the backend throws,
tagged with their message strings.  `aborted` is the spec's RETRY_NEEDED,
`failedPrecondition` covers TOO_EARLY / NO_REWARD / INSUFFICIENT_BALANCE
(the message distinguishes them), `notFound` is ACCOUNT_NOT_FOUND. -/
inductive HttpsErr where
  | aborted (msg : String)
  | failedPrecondition (msg : String)
  | notFound (msg : String)
  | unauthenticated (msg : String)
  | internal (msg : String)
deriving Repr, DecidableEq

/-- Result of a `db.runTransaction` callback: a normal return commits the
buffered writes (`writes = none` means no write was buffered), a thrown
error rolls the transaction back, discarding any buffered writes. -/
inductive TxOutcome (α : Type) where
  | ok (value : α) (writes : Option UserRecord)
  | err (e : HttpsErr)
deriving Repr

/-- Commit-or-rollback semantics of `db.runTransaction`: buffered writes are
applied only on normal return of the callback. -/
def applyTx {α : Type} (rec : Option UserRecord) :
    TxOutcome α → Except HttpsErr α × Option UserRecord
  | TxOutcome.ok v (some w) => (Except.ok v, some w)
  | TxOutcome.ok v none => (Except.ok v, rec)
  | TxOutcome.err e => (Except.error e, rec)

/-! ## The ownership oracle (`checkNftCountOnChain`) -/

/-- One entry of an asset's `grouping` array. -/
structure Grouping where
  group_key : String
  group_value : String
deriving Repr, DecidableEq

/-- A Helius asset, restricted to the fields the source inspects:
`grouping` (absent or not an array is `none`) and
`content.links.collection` (any absent link in the chain is `none`). -/
structure Asset where
  grouping : Option (List Grouping)
  contentLinksCollection : Option String
deriving Repr, DecidableEq

/-- JS truthiness of a possibly-missing string (`null`/`undefined` and the
empty string are falsy). -/
def jsTruthy : Option String → Bool
  | some s => s ≠ ""
  | none => false

/-- The fixed whitelist `WHITELISTED_COLLECTIONS` (a six-element `Set`). -/
def WHITELISTED_COLLECTIONS : List String :=
  ["2m9DupVeheZ5vfuXZxqV3KSQ7HnVDk2tG6ouH1ZnLwYb",
   "DmRQEKrjRHrEVT8TNc7kWLjKbCv7RTn672LrgpnFagah",
   "dgd6We3oS4M5LSVzT6Ep39wwVpjLC336tCpyPZkLAHx",
   "FdpDYUWYC8PekGttXz9kPb48CxVjpiEm5NaBb3X6zExy",
   "HEyazxpV2wxMUvNx53UZUXthRS9Rjsbv7hoHYJNbVedC",
   "DoJoE6b8Lbb1t8qcdm4qDRXLS7RvadZo9Rfz8xq2VgLx"]

/-- Collection address extraction for one asset: prefer a `grouping` entry
with `group_key === "collection"` (only when the grouping array is present
and non-empty), otherwise fall back to `content.links.collection` when that
is truthy. -/
def collectionAddressOf (a : Asset) : Option String :=
  let fromGrouping : Option String :=
    match a.grouping with
    | some gs =>
        if gs.length > 0 then
          match gs.find? (fun g => g.group_key = "collection") with
          | some gi => some gi.group_value
          | none => none
        else none
    | none => none
  if jsTruthy fromGrouping then fromGrouping
  else if jsTruthy a.contentLinksCollection then a.contentLinksCollection
  else fromGrouping

/-- An asset is counted when its extracted collection address is truthy and
belongs to the whitelist (`collectionAddress && WHITELISTED_COLLECTIONS.has`). -/
def assetQualifies (a : Asset) : Bool :=
  match collectionAddressOf a with
  | some addr => addr ≠ "" && WHITELISTED_COLLECTIONS.contains addr
  | none => false

/-- The oracle `checkNftCountOnChain`: 0 for a falsy owner address, 0 for a
falsy configured API key, 0 on any request/response/parse failure
(`requestFails` covers `!response.ok`, `data.error` and thrown errors);
otherwise the number of qualifying assets among the response items, which —
the request being `page: 1, limit: 1000` — are the first (at most 1000)
assets of the owner's holding `owned`. -/
def checkNftCountOnChain (ownerAddress : String) (apiKey : Option String)
    (owned : List Asset) (requestFails : Bool) : Nat :=
  if ownerAddress = "" then 0
  else if ¬ jsTruthy apiKey then 0
  else if requestFails then 0
  else ((owned.take 1000).filter assetQualifies).length

/-! ## `updateUserWallet` (the spec's `refreshHolderStatus`) -/

/-- The `updateUserWallet` callable, after authentication: one merged `set`
on the user document.  `oracleCount` is the value `checkNftCountOnChain`
returned for this call and `now` the server time in epoch milliseconds
(`FieldValue.serverTimestamp()` resolves to `now`).  The source computes
`startOfPreviousHour` but never uses it; every call — first or not — writes
`walletAddress`, `nftCount` and `lastClaimTimestamp: serverTimestamp()`.
A merge-created document lacks `tetoBalance`; both readers default the
missing field to 0, so creation is modelled with balance 0. -/
def updateUserWallet (uid : String) (now : Int) (oracleCount : Nat)
    (rec : Option UserRecord) : UserRecord :=
  match rec with
  | none =>
      { walletAddress := uid, nftCount := oracleCount, tetoBalance := 0,
        lastClaimTimestamp := now }
  | some u =>
      { u with walletAddress := uid, nftCount := oracleCount,
               lastClaimTimestamp := now }

/-! ## `claimRewards` (the spec's `settleAndClaim`) -/

/-- The document `claimRewards` buffers with `transaction.set` when the user
document is absent: balance 0, the oracle's current count, and
`lastClaimTimestamp` = start of the hour before the current one. -/
def freshProfile (uid : String) (now : Int) (oracleCount : Nat) : UserRecord :=
  { walletAddress := uid, nftCount := oracleCount, tetoBalance := 0,
    lastClaimTimestamp := hourStart now - 3600000 }

/-- Message of the `aborted` error thrown after the `transaction.set` for a
missing profile. -/
def retryMsg : String := "User profile created. Please try claiming again."

/-- Message of the TOO_EARLY failure. -/
def tooEarlyMsg : String := "Next claim not available yet."

/-- Message of the NO_REWARD failure thrown by the post-transaction stage. -/
def noRewardMsg : String := "You must hold an NFT to claim rewards."

/-- The `db.runTransaction` callback of `claimRewards`.  `oracleCount` is
what `checkNftCountOnChain(uid)` returns during this call.  When the
document is absent the source buffers `freshProfile` via `transaction.set`
and then throws; the throw rolls the transaction back, so the buffered set
is not committed (hence `err` with no writes).  Otherwise it computes
`hoursToClaim = Math.floor((startOfCurrentHour - lastClaimTimestamp)/3600000)`,
throws TOO_EARLY below 1, updates the cached `nftCount` when the fresh count
differs, burns the elapsed hours returning 0 when the fresh count is ≤ 0,
and otherwise credits `hoursToClaim * count * 10` and advances the
timestamp. -/
def claimRewardsTx (uid : String) (now : Int) (oracleCount : Nat)
    (rec : Option UserRecord) : TxOutcome Int :=
  match rec with
  | none =>
      let buffered := freshProfile uid now oracleCount
      -- transaction.set(userDocRef, buffered) is immediately followed by
      -- `throw new HttpsError("aborted", ...)`, so `buffered` is rolled back.
      TxOutcome.err (HttpsErr.aborted retryMsg)
  | some u =>
      let startOfCurrentHour := hourStart now
      let hoursToClaim : Int := (startOfCurrentHour - u.lastClaimTimestamp).fdiv 3600000
      if hoursToClaim < 1 then
        TxOutcome.err (HttpsErr.failedPrecondition tooEarlyMsg)
      else
        let u1 := if oracleCount ≠ u.nftCount then { u with nftCount := oracleCount } else u
        if oracleCount ≤ 0 then
          TxOutcome.ok 0 (some { u1 with lastClaimTimestamp := startOfCurrentHour })
        else
          let totalRewards : Int := hoursToClaim * oracleCount * 10
          if totalRewards ≤ 0 then
            TxOutcome.ok 0 (if oracleCount ≠ u.nftCount then some u1 else none)
          else
            TxOutcome.ok totalRewards
              (some { u1 with tetoBalance := u.tetoBalance + totalRewards,
                              lastClaimTimestamp := startOfCurrentHour })

/-- The full `claimRewards` callable after authentication: run the
transaction, then (`.then`) convert a non-positive claimed amount into the
NO_REWARD `failed-precondition` error — the transaction has already
committed at that point, so its writes survive. -/
def claimRewards (uid : String) (now : Int) (oracleCount : Nat)
    (rec : Option UserRecord) : Except HttpsErr Int × Option UserRecord :=
  match applyTx rec (claimRewardsTx uid now oracleCount rec) with
  | (Except.ok amountClaimed, st) =>
      if amountClaimed > 0 then (Except.ok amountClaimed, st)
      else (Except.error (HttpsErr.failedPrecondition noRewardMsg), st)
  | (Except.error e, st) => (Except.error e, st)

/-! ## `spinTheWheel` (the spec's `resolveWager`) -/

/-- Wager cost, `SPIN_COST = 10`. -/
def SPIN_COST : Int := 10

/-- One wheel segment. -/
structure Segment where
  prize : Nat
  segmentIndex : Nat
deriving Repr, DecidableEq

/-- The `segments` table of `spinTheWheel`, verbatim. -/
def segments : List Segment :=
  [{ prize := 20, segmentIndex := 0 },
   { prize := 0, segmentIndex := 1 },
   { prize := 30, segmentIndex := 2 },
   { prize := 0, segmentIndex := 3 },
   { prize := 20, segmentIndex := 4 },
   { prize := 0, segmentIndex := 5 }]

/-- Segment selection from the two `Math.random()` draws: tier by `r1`
against 0.60 / 0.90, then a uniform index `Math.floor(r2 * length)` into
the filtered tier (the jackpot tier uses `find`).  Out-of-range indexing
(impossible for `0 ≤ r2 < 1`) is modelled with a default segment. -/
def chooseSegment (r1 r2 : ℚ) : Segment :=
  if r1 < 60/100 then
    let loseOptions := segments.filter (fun s => s.prize = 0)
    loseOptions.getD (Int.toNat ⌊r2 * loseOptions.length⌋) { prize := 0, segmentIndex := 0 }
  else if r1 < 90/100 then
    let win2xOptions := segments.filter (fun s => s.prize = 20)
    win2xOptions.getD (Int.toNat ⌊r2 * win2xOptions.length⌋) { prize := 0, segmentIndex := 0 }
  else
    (segments.find? (fun s => s.prize = 30)).getD { prize := 0, segmentIndex := 0 }

/-- Message of the ACCOUNT_NOT_FOUND failure. -/
def notFoundMsg : String := "User data not found."

/-- Message of the INSUFFICIENT_BALANCE failure. -/
def insufficientMsg : String := "Not enough TETO to spin."

/-- The `db.runTransaction` callback of `spinTheWheel`: the document must
exist (`||` defaults a missing balance to 0), the balance must cover
`SPIN_COST`, then the chosen segment's prize is settled atomically as
`tetoBalance - SPIN_COST + prize`.  Returns `(segmentIndex, prize)`. -/
def spinTheWheelTx (r1 r2 : ℚ) (rec : Option UserRecord) :
    TxOutcome (Nat × Nat) :=
  match rec with
  | none => TxOutcome.err (HttpsErr.notFound notFoundMsg)
  | some u =>
      let currentBalance := u.tetoBalance
      if currentBalance < SPIN_COST then
        TxOutcome.err (HttpsErr.failedPrecondition insufficientMsg)
      else
        let result := chooseSegment r1 r2
        TxOutcome.ok (result.segmentIndex, result.prize)
          (some { u with tetoBalance := currentBalance - SPIN_COST + result.prize })

/-- The full `spinTheWheel` callable after authentication. -/
def spinTheWheel (r1 r2 : ℚ) (rec : Option UserRecord) :
    Except HttpsErr (Nat × Nat) × Option UserRecord :=
  applyTx rec (spinTheWheelTx r1 r2 rec)

/-! ## Operation sequences over one account -/

/-- One ledger/wager operation together with its environment: the server
time and fresh oracle count for a settle, the two random draws for a
wager. -/
inductive LedgerOp where
  | settle (now : Int) (oracleCount : Nat)
  | wager (r1 r2 : ℚ)

/-- The stored state after one operation. -/
def stepState (uid : String) (st : Option UserRecord) : LedgerOp → Option UserRecord
  | LedgerOp.settle now c => (claimRewards uid now c st).2
  | LedgerOp.wager r1 r2 => (spinTheWheel r1 r2 st).2

/-- The stored state after a sequence of operations. -/
def runOps (uid : String) (st : Option UserRecord) : List LedgerOp → Option UserRecord
  | [] => st
  | op :: ops => runOps uid (stepState uid st op) ops

/-- Balance non-negativity of a possibly-absent record. -/
def balanceNonneg : Option UserRecord → Prop
  | none => True
  | some u => 0 ≤ u.tetoBalance

/-- A sample asset whose collection address sits in the whitelist. -/
def sampleAsset : Asset :=
  { grouping := some [{ group_key := "collection",
                        group_value := "2m9DupVeheZ5vfuXZxqV3KSQ7HnVDk2tG6ouH1ZnLwYb" }],
    contentLinksCollection := none }

/-! ## Claim theorems -/

/-- C5: the spec says `refreshHolderStatus` writes the `lastSettlement`
timestamp only on the first-ever write and leaves it alone afterwards.  The
code (`updateUserWallet`) overwrites `lastClaimTimestamp` with the current
server time on every call — here a record whose timestamp was 0 ends up with
timestamp 5400000 after an unrelated refresh. -/
theorem refresh_overwrites_timestamp :
    (updateUserWallet "w" 5400000 4
        (some { walletAddress := "w", nftCount := 2, tetoBalance := 50,
                lastClaimTimestamp := 0 })).lastClaimTimestamp = 5400000 ∧
    (5400000 : Int) ≠ 0 := by
  exact ⟨rfl, by decide⟩

/-- C6: the spec's invariant says `lastSettlement` is always hour-aligned
after every operation.  `updateUserWallet` stores the raw server timestamp,
so a refresh at epoch millisecond 5401000 leaves a timestamp that is not a
multiple of 3600000. -/
theorem refresh_breaks_hour_alignment :
    (updateUserWallet "w" 5401000 4
        (some { walletAddress := "w", nftCount := 2, tetoBalance := 50,
                lastClaimTimestamp := 0 })).lastClaimTimestamp % 3600000 ≠ 0 := by
  decide

/-- C7: the spec says a claim on a missing record creates the record and
fails with RETRY_NEEDED.  The code buffers the `freshProfile` set but then
throws inside the `runTransaction` callback, so the write is rolled back and
the stored state is still `none`; an immediate retry hits the same path and
also leaves `none`.  Moreover, had the seed committed, a retry inside the
same hour would credit one accrued hour (1 * 1 * 10 = 10), not zero, because
the seed is the start of the previous hour. -/
theorem missing_profile_rolled_back :
    claimRewards "w" 7200000 3 none =
      (Except.error (HttpsErr.aborted retryMsg), none) ∧
    (claimRewards "w" 10800000 3 (claimRewards "w" 7200000 3 none).2).2 = none ∧
    (claimRewards "w" 7200000 1 (some (freshProfile "w" 7200000 1))).1 =
      Except.ok 10 := by
  exact ⟨rfl, rfl, rfl⟩

/-- C2 counterexample: a claim whose fresh oracle count is 0 (the NO_REWARD
outcome) returns a typed failure to the caller, yet the committed state
differs from the pre-call state: the cached count is refreshed and
`lastClaimTimestamp` is advanced to the current hour start. -/
theorem failure_changes_state_counterexample :
    (claimRewards "w" 7200000 0
        (some { walletAddress := "w", nftCount := 5, tetoBalance := 7,
                lastClaimTimestamp := 0 })).1 =
      Except.error (HttpsErr.failedPrecondition noRewardMsg) ∧
    (claimRewards "w" 7200000 0
        (some { walletAddress := "w", nftCount := 5, tetoBalance := 7,
                lastClaimTimestamp := 0 })).2 ≠
      some { walletAddress := "w", nftCount := 5, tetoBalance := 7,
             lastClaimTimestamp := 0 } := by
  exact ⟨rfl, by decide⟩

/-- C3 counterexample: the wheel's table does not have four zero-payout
slots — filtering `segments` for `prize = 0` yields three slots. -/
theorem wheel_table_counterexample :
    ¬ (segments.filter (fun s => s.prize = 0)).length = 4 := by
  decide

/-- Success path of the `claimRewards` transaction callback: with at least
one elapsed hour and a positive fresh count, it credits
`hoursToClaim * count * 10` and advances the timestamp. -/
lemma claimRewardsTx_success (uid : String) (now : Int) (n : Nat)
    (u : UserRecord) (hn : 0 < n)
    (hh : 1 ≤ (hourStart now - u.lastClaimTimestamp).fdiv 3600000) :
    claimRewardsTx uid now n (some u) =
      TxOutcome.ok ((hourStart now - u.lastClaimTimestamp).fdiv 3600000 * n * 10)
        (some { u with nftCount := n,
                       tetoBalance := u.tetoBalance +
                         (hourStart now - u.lastClaimTimestamp).fdiv 3600000 * n * 10,
                       lastClaimTimestamp := hourStart now }) := by
  have hnotlt : ¬ (hourStart now - u.lastClaimTimestamp).fdiv 3600000 < 1 :=
    not_lt.mpr hh
  have hn0 : ¬ n ≤ 0 := by omega
  have hpos : 0 < (hourStart now - u.lastClaimTimestamp).fdiv 3600000 * n * 10 := by
    have h1 : (1 : Int) ≤ (n : Int) := by exact_mod_cast hn
    nlinarith
  have hnotle : ¬ (hourStart now - u.lastClaimTimestamp).fdiv 3600000 * n * 10 ≤ 0 :=
    not_le.mpr hpos
  unfold claimRewardsTx
  simp only [hnotlt, if_false, hn0, hnotle, if_neg, ite_false]
  by_cases hc : n = u.nftCount
  · simp [hc, hnotlt, hn0, hnotle]
  · simp [hc, hnotlt, hn0, hnotle]

/-- C1: for an existing record with `hoursElapsed =
floor((currentHourStart - lastSettlement) / 1 hour) ≥ 1` and a freshly
observed qualifying count `n > 0`, `claimRewards` credits exactly
`hoursElapsed * n * 10` to the balance, sets `lastSettlement` to the current
hour start in the same transaction, and returns that reward amount. -/
theorem settle_credits_hours_times_count (uid : String) (now : Int) (n : Nat)
    (u : UserRecord) (hn : 0 < n)
    (hh : 1 ≤ (hourStart now - u.lastClaimTimestamp).fdiv 3600000) :
    claimRewards uid now n (some u) =
      (Except.ok ((hourStart now - u.lastClaimTimestamp).fdiv 3600000 * n * 10),
       some { u with nftCount := n,
                     tetoBalance := u.tetoBalance +
                       (hourStart now - u.lastClaimTimestamp).fdiv 3600000 * n * 10,
                     lastClaimTimestamp := hourStart now }) := by
  have hpos : 0 < (hourStart now - u.lastClaimTimestamp).fdiv 3600000 * n * 10 := by
    have h1 : (1 : Int) ≤ (n : Int) := by exact_mod_cast hn
    nlinarith
  unfold claimRewards
  rw [claimRewardsTx_success uid now n u hn hh]
  simp [applyTx, hpos]

/-- Witness for C1: a record last settled at epoch 0, claimed at the
2-hour mark with a fresh count of 3, is credited 2 * 3 * 10 = 60. -/
theorem settle_credits_hours_times_count_witness :
    claimRewards "w" 7200000 3
        (some { walletAddress := "w", nftCount := 3, tetoBalance := 7,
                lastClaimTimestamp := 0 }) =
      (Except.ok 60,
       some { walletAddress := "w", nftCount := 3, tetoBalance := 67,
              lastClaimTimestamp := 7200000 }) := by
  have h := settle_credits_hours_times_count "w" 7200000 3
      { walletAddress := "w", nftCount := 3, tetoBalance := 7,
        lastClaimTimestamp := 0 } (by decide) (by decide)
  exact h.trans (by rfl)

/-- A successful (`Except.ok`) claim leaves a stored record whose
`lastClaimTimestamp` is the start of the hour of the call. -/
lemma claim_ok_state (uid : String) (now : Int) (n : Nat)
    (rec : Option UserRecord) (v : Int) (st : Option UserRecord)
    (h : claimRewards uid now n rec = (Except.ok v, st)) :
    ∃ u2 : UserRecord, st = some u2 ∧ u2.lastClaimTimestamp = hourStart now := by
  cases rec with
  | none => simp [claimRewards, claimRewardsTx, applyTx] at h
  | some u =>
      unfold claimRewards claimRewardsTx at h
      by_cases h1 : (hourStart now - u.lastClaimTimestamp).fdiv 3600000 < 1
      · simp [h1, applyTx] at h
      · by_cases h2 : n ≤ 0
        · simp [h1, h2, applyTx] at h
        · by_cases h3 : (hourStart now - u.lastClaimTimestamp).fdiv 3600000 * n * 10 ≤ 0
          · by_cases hc : n = u.nftCount
            · have h2a : ¬ u.nftCount = 0 := by omega
              rw [hc] at h3
              simp [h1, hc, h2a, h3, applyTx] at h
            · simp [h1, h2, h3, hc, applyTx] at h
          · have hpos : 0 < (hourStart now - u.lastClaimTimestamp).fdiv 3600000 * n * 10 :=
              not_le.mp h3
            simp [h1, h2, h3, applyTx, hpos, Prod.mk.injEq] at h
            exact ⟨_, h.2.symm, rfl⟩

/-- C8: a second `claimRewards` call in the same hour bucket as a
successful settlement computes `hoursElapsed = 0 < 1` and fails with
TOO_EARLY, leaving the stored state (balance, timestamp, cached count)
exactly as the first call left it. -/
theorem second_settle_same_bucket_too_early (uid : String) (now1 now2 : Int)
    (n1 n2 : Nat) (u : UserRecord) (v : Int) (st : Option UserRecord)
    (hsucc : claimRewards uid now1 n1 (some u) = (Except.ok v, st))
    (hbucket : hourStart now2 = hourStart now1) :
    claimRewards uid now2 n2 st =
      (Except.error (HttpsErr.failedPrecondition tooEarlyMsg), st) := by
  obtain ⟨u2, hst, hlast⟩ := claim_ok_state uid now1 n1 (some u) v st hsucc
  subst hst
  have h0 : (hourStart now2 - u2.lastClaimTimestamp).fdiv 3600000 = 0 := by
    rw [hlast, hbucket, sub_self]
    rfl
  have hlt : (hourStart now2 - u2.lastClaimTimestamp).fdiv 3600000 < 1 := by omega
  simp [claimRewards, claimRewardsTx, applyTx, hlt]

/-- Witness for C8: settling at the 1-hour mark succeeds (credits 10), and
settling again 5 seconds later, inside the same hour bucket, yields
TOO_EARLY with the state unchanged. -/
theorem second_settle_same_bucket_too_early_witness :
    claimRewards "w" 3605000 1
        (some { walletAddress := "w", nftCount := 1, tetoBalance := 10,
                lastClaimTimestamp := 3600000 }) =
      (Except.error (HttpsErr.failedPrecondition tooEarlyMsg),
       some { walletAddress := "w", nftCount := 1, tetoBalance := 10,
              lastClaimTimestamp := 3600000 }) := by
  exact second_settle_same_bucket_too_early "w" 3600000 3605000 1 1
      { walletAddress := "w", nftCount := 1, tetoBalance := 0,
        lastClaimTimestamp := 0 } 10
      (some { walletAddress := "w", nftCount := 1, tetoBalance := 10,
              lastClaimTimestamp := 3600000 })
      (by rfl) (by decide)

/-- One wager preserves balance non-negativity: the guard requires at least
`SPIN_COST`, and the settled balance is `balance - 10 + prize` with a
non-negative prize. -/
lemma spin_preserves_nonneg (r1 r2 : ℚ) (st : Option UserRecord)
    (h : balanceNonneg st) : balanceNonneg (spinTheWheel r1 r2 st).2 := by
  cases st with
  | none => simp [spinTheWheel, spinTheWheelTx, applyTx, balanceNonneg]
  | some u =>
      by_cases hb : u.tetoBalance < 10
      · have hb' : u.tetoBalance < SPIN_COST := hb
        simpa [spinTheWheel, spinTheWheelTx, applyTx, SPIN_COST, hb, balanceNonneg] using h
      · simp [spinTheWheel, spinTheWheelTx, applyTx, SPIN_COST, hb, balanceNonneg]
        omega

/-- One settlement preserves balance non-negativity: the balance either
stays unchanged or grows by a positive reward. -/
lemma settle_preserves_nonneg (uid : String) (now : Int) (c : Nat)
    (st : Option UserRecord) (h : balanceNonneg st) :
    balanceNonneg (claimRewards uid now c st).2 := by
  cases st with
  | none => simp [claimRewards, claimRewardsTx, applyTx, balanceNonneg]
  | some u =>
      have hu : 0 ≤ u.tetoBalance := h
      unfold claimRewards claimRewardsTx
      by_cases h1 : (hourStart now - u.lastClaimTimestamp).fdiv 3600000 < 1
      · simpa [applyTx, h1, balanceNonneg] using hu
      · by_cases h2 : c ≤ 0
        · have hc0 : c = 0 := by omega
          subst hc0
          by_cases hc : (0 : Nat) = u.nftCount <;>
            simpa [applyTx, h1, hc, balanceNonneg] using hu
        · by_cases h3 : (hourStart now - u.lastClaimTimestamp).fdiv 3600000 * c * 10 ≤ 0
          · by_cases hc : c = u.nftCount
            · have h2a : ¬ u.nftCount = 0 := by omega
              rw [hc] at h3
              simpa [applyTx, h1, hc, h2a, h3, balanceNonneg] using hu
            · simpa [applyTx, h1, h2, h3, hc, balanceNonneg] using hu
          · have hpos : 0 < (hourStart now - u.lastClaimTimestamp).fdiv 3600000 * c * 10 :=
              not_le.mp h3
            by_cases hc : c = u.nftCount
            · have h2a : ¬ u.nftCount = 0 := by omega
              rw [hc] at h3 hpos
              simp [applyTx, h1, hc, h2a, h3, hpos, balanceNonneg]
              omega
            · simp [applyTx, h1, h2, h3, hc, hpos, balanceNonneg]
              omega

/-- Any operation sequence preserves balance non-negativity. -/
lemma runOps_preserves_nonneg (uid : String) (ops : List LedgerOp) :
    ∀ st : Option UserRecord, balanceNonneg st →
      balanceNonneg (runOps uid st ops) := by
  induction ops with
  | nil => intro st h; exact h
  | cons op ops ih =>
      intro st h
      cases op with
      | settle now c => exact ih _ (settle_preserves_nonneg uid now c st h)
      | wager r1 r2 => exact ih _ (spin_preserves_nonneg r1 r2 st h)

/-- C9: starting from a freshly created record (balance 0), the stored
balance is non-negative after every finite sequence of `claimRewards` and
`spinTheWheel` operations (every prefix of a sequence is itself such a
sequence). -/
theorem balance_nonneg_after_ops (uid : String) (now0 : Int) (c0 : Nat)
    (ops : List LedgerOp) :
    balanceNonneg (runOps uid (some (freshProfile uid now0 c0)) ops) := by
  refine runOps_preserves_nonneg uid ops _ ?_
  show (0 : Int) ≤ 0
  exact le_refl 0

/-- An index of the form `Math.floor(r * n)` with `0 ≤ r < 1` is in range
for a list of length `n`. -/
lemma toNat_floor_mul_lt (r : ℚ) (n : Nat) (h0 : 0 ≤ r) (h1 : r < 1)
    (hn : 0 < n) : Int.toNat ⌊r * (n : ℚ)⌋ < n := by
  have hnq : (0 : ℚ) < n := by exact_mod_cast hn
  have hlt : r * (n : ℚ) < n := by nlinarith
  have hfl : ⌊r * (n : ℚ)⌋ < (n : ℤ) := Int.floor_lt.mpr (by exact_mod_cast hlt)
  omega

/-- `Math.floor(r * n) = i` exactly when `r` lies in the `i`-th of `n`
equal-width sub-intervals of `[0,1)` — the sense in which the in-tier pick
is uniform. -/
lemma toNat_floor_mul_eq_iff (r : ℚ) (n i : Nat) (h0 : 0 ≤ r) (hn : 0 < n) :
    Int.toNat ⌊r * (n : ℚ)⌋ = i ↔
      ((i : ℚ) / n ≤ r ∧ r < ((i : ℚ) + 1) / n) := by
  have hnq : (0 : ℚ) < n := by exact_mod_cast hn
  have hge : (0 : ℤ) ≤ ⌊r * (n : ℚ)⌋ := Int.floor_nonneg.mpr (by positivity)
  rw [show (Int.toNat ⌊r * (n : ℚ)⌋ = i) ↔ (⌊r * (n : ℚ)⌋ = (i : ℤ)) from by omega]
  rw [Int.floor_eq_iff]
  rw [div_le_iff₀ hnq, lt_div_iff₀ hnq]
  push_cast
  constructor
  · exact fun ⟨p, q⟩ => ⟨p, q⟩
  · exact fun ⟨p, q⟩ => ⟨p, q⟩

/-- The zero-prize slots of the table, evaluated. -/
lemma lose_options_eval :
    segments.filter (fun s => s.prize = 0) =
      [{ prize := 0, segmentIndex := 1 }, { prize := 0, segmentIndex := 3 },
       { prize := 0, segmentIndex := 5 }] := by decide

/-- The double-prize slots of the table, evaluated. -/
lemma win_options_eval :
    segments.filter (fun s => s.prize = 20) =
      [{ prize := 20, segmentIndex := 0 }, { prize := 20, segmentIndex := 4 }] := by
  decide

/-- In the lose tier (`r1 < 0.60`) the chosen segment is the
`Math.floor(r2 * 3)`-th zero-prize slot. -/
lemma chooseSegment_lose (r1 r2 : ℚ) (ha : r1 < 60/100) :
    chooseSegment r1 r2 =
      (segments.filter (fun s => s.prize = 0)).getD
        (Int.toNat ⌊r2 * ((3 : Nat) : ℚ)⌋) { prize := 0, segmentIndex := 0 } := by
  simp [chooseSegment, ha, lose_options_eval]

/-- In the double tier (`0.60 ≤ r1 < 0.90`) the chosen segment is the
`Math.floor(r2 * 2)`-th double-prize slot. -/
lemma chooseSegment_win (r1 r2 : ℚ) (ha : ¬ r1 < 60/100) (hb : r1 < 90/100) :
    chooseSegment r1 r2 =
      (segments.filter (fun s => s.prize = 20)).getD
        (Int.toNat ⌊r2 * ((2 : Nat) : ℚ)⌋) { prize := 0, segmentIndex := 0 } := by
  simp [chooseSegment, ha, hb, win_options_eval]

/-- In the jackpot tier (`r1 ≥ 0.90`) the chosen segment is the unique
prize-30 slot. -/
lemma chooseSegment_jackpot (r1 r2 : ℚ) (ha : ¬ r1 < 60/100)
    (hb : ¬ r1 < 90/100) :
    chooseSegment r1 r2 = { prize := 30, segmentIndex := 2 } := by
  unfold chooseSegment
  rw [if_neg ha, if_neg hb]
  decide

/-- Every in-range zero-tier pick is a table slot of prize 0. -/
lemma lose_getD_mem_prize (k : Nat) (hk : k < 3) :
    (segments.filter (fun s => s.prize = 0)).getD k
        { prize := 0, segmentIndex := 0 } ∈ segments ∧
    ((segments.filter (fun s => s.prize = 0)).getD k
        { prize := 0, segmentIndex := 0 }).prize = 0 := by
  interval_cases k <;> exact ⟨by decide, by decide⟩

/-- Every in-range double-tier pick is a table slot of prize 20. -/
lemma win_getD_mem_prize (k : Nat) (hk : k < 2) :
    (segments.filter (fun s => s.prize = 20)).getD k
        { prize := 0, segmentIndex := 0 } ∈ segments ∧
    ((segments.filter (fun s => s.prize = 20)).getD k
        { prize := 0, segmentIndex := 0 }).prize = 20 := by
  interval_cases k <;> exact ⟨by decide, by decide⟩

/-- Distinct in-range indices pick distinct zero-tier slots. -/
lemma lose_getD_inj (k i : Nat) (hk : k < 3) (hi : i < 3) :
    ((segments.filter (fun s => s.prize = 0)).getD k
        { prize := 0, segmentIndex := 0 } =
      (segments.filter (fun s => s.prize = 0)).getD i
        { prize := 0, segmentIndex := 0 }) ↔ k = i := by
  interval_cases k <;> interval_cases i <;> decide

/-- Distinct in-range indices pick distinct double-tier slots. -/
lemma win_getD_inj (k i : Nat) (hk : k < 2) (hi : i < 2) :
    ((segments.filter (fun s => s.prize = 20)).getD k
        { prize := 0, segmentIndex := 0 } =
      (segments.filter (fun s => s.prize = 20)).getD i
        { prize := 0, segmentIndex := 0 }) ↔ k = i := by
  interval_cases k <;> interval_cases i <;> decide

/-- C3, amended: the table has six slots but three (not four) zero-payout
slots, two double slots (20) and one jackpot slot (30); `r1 < 0.60` selects
the lose tier, `r1 < 0.90` the double tier, else the jackpot; within a
multi-slot tier the pick is `Math.floor(r2 * tierSize)`, which selects each
slot exactly when `r2` lies in the corresponding equal-width sub-interval of
`[0,1)`. -/
theorem wheel_three_lose_two_double_one_jackpot (r1 r2 : ℚ)
    (h0 : 0 ≤ r2) (h1 : r2 < 1) :
    (segments.length = 6 ∧
     (segments.filter (fun s => s.prize = 0)).length = 3 ∧
     (segments.filter (fun s => s.prize = 20)).length = 2 ∧
     (segments.filter (fun s => s.prize = 30)).length = 1) ∧
    chooseSegment r1 r2 ∈ segments ∧
    (chooseSegment r1 r2).prize =
      (if r1 < 60/100 then 0 else if r1 < 90/100 then 20 else 30) ∧
    (r1 < 60/100 → ∀ i : Nat, i < 3 →
      (chooseSegment r1 r2 =
          (segments.filter (fun s => s.prize = 0)).getD i
            { prize := 0, segmentIndex := 0 } ↔
        (i : ℚ) / 3 ≤ r2 ∧ r2 < ((i : ℚ) + 1) / 3)) ∧
    (¬ r1 < 60/100 → r1 < 90/100 → ∀ i : Nat, i < 2 →
      (chooseSegment r1 r2 =
          (segments.filter (fun s => s.prize = 20)).getD i
            { prize := 0, segmentIndex := 0 } ↔
        (i : ℚ) / 2 ≤ r2 ∧ r2 < ((i : ℚ) + 1) / 2)) ∧
    (¬ r1 < 60/100 → ¬ r1 < 90/100 →
      chooseSegment r1 r2 = { prize := 30, segmentIndex := 2 }) := by
  have hk3 := toNat_floor_mul_lt r2 3 h0 h1 (by norm_num)
  have hk2 := toNat_floor_mul_lt r2 2 h0 h1 (by norm_num)
  refine ⟨⟨by decide, by decide, by decide, by decide⟩, ?_, ?_, ?_, ?_, ?_⟩
  · by_cases ha : r1 < 60/100
    · rw [chooseSegment_lose r1 r2 ha]
      exact (lose_getD_mem_prize _ hk3).1
    · by_cases hb : r1 < 90/100
      · rw [chooseSegment_win r1 r2 ha hb]
        exact (win_getD_mem_prize _ hk2).1
      · rw [chooseSegment_jackpot r1 r2 ha hb]
        decide
  · by_cases ha : r1 < 60/100
    · rw [chooseSegment_lose r1 r2 ha, if_pos ha]
      exact (lose_getD_mem_prize _ hk3).2
    · by_cases hb : r1 < 90/100
      · rw [chooseSegment_win r1 r2 ha hb, if_neg ha, if_pos hb]
        exact (win_getD_mem_prize _ hk2).2
      · rw [chooseSegment_jackpot r1 r2 ha hb, if_neg ha, if_neg hb]
  · intro ha i hi
    rw [chooseSegment_lose r1 r2 ha, lose_getD_inj _ i hk3 hi]
    exact toNat_floor_mul_eq_iff r2 3 i h0 (by norm_num)
  · intro ha hb i hi
    rw [chooseSegment_win r1 r2 ha hb, win_getD_inj _ i hk2 hi]
    exact toNat_floor_mul_eq_iff r2 2 i h0 (by norm_num)
  · intro ha hb
    exact chooseSegment_jackpot r1 r2 ha hb

/-- Witness for C3 amended: a draw of `r1 = 0.95` lands in the jackpot
tier and pays the prize-30 slot. -/
theorem wheel_three_lose_two_double_one_jackpot_witness :
    chooseSegment (95/100) (1/2) = { prize := 30, segmentIndex := 2 } :=
  (wheel_three_lose_two_double_one_jackpot (95/100) (1/2)
      (by norm_num) (by norm_num)).2.2.2.2.2 (by norm_num) (by norm_num)

/-- The prize of any chosen segment is 0, 20 or 30. -/
lemma chooseSegment_prize_cases (r1 r2 : ℚ) (h0 : 0 ≤ r2) (h1 : r2 < 1) :
    (chooseSegment r1 r2).prize = 0 ∨ (chooseSegment r1 r2).prize = 20 ∨
      (chooseSegment r1 r2).prize = 30 := by
  by_cases ha : r1 < 60/100
  · rw [chooseSegment_lose r1 r2 ha]
    exact Or.inl (lose_getD_mem_prize _ (toNat_floor_mul_lt r2 3 h0 h1 (by norm_num))).2
  · by_cases hb : r1 < 90/100
    · rw [chooseSegment_win r1 r2 ha hb]
      exact Or.inr (Or.inl
        (win_getD_mem_prize _ (toNat_floor_mul_lt r2 2 h0 h1 (by norm_num))).2)
    · rw [chooseSegment_jackpot r1 r2 ha hb]
      exact Or.inr (Or.inr rfl)

/-- C4: `spinTheWheel` on an absent record fails with ACCOUNT_NOT_FOUND and
creates nothing; with balance below `SPIN_COST = 10` it fails with
INSUFFICIENT_BALANCE and changes nothing; otherwise the new balance is the
old balance minus 10 plus the selected slot's payout, so from balance 10 the
resulting balance is 0, 20 or 30. -/
theorem wager_preconditions_and_balance (r1 r2 : ℚ) (u : UserRecord)
    (h0 : 0 ≤ r2) (h1 : r2 < 1) :
    spinTheWheel r1 r2 none =
      (Except.error (HttpsErr.notFound notFoundMsg), none) ∧
    (u.tetoBalance < 10 →
      spinTheWheel r1 r2 (some u) =
        (Except.error (HttpsErr.failedPrecondition insufficientMsg), some u)) ∧
    (10 ≤ u.tetoBalance →
      spinTheWheel r1 r2 (some u) =
        (Except.ok ((chooseSegment r1 r2).segmentIndex, (chooseSegment r1 r2).prize),
         some { u with tetoBalance :=
                  u.tetoBalance - 10 + (chooseSegment r1 r2).prize }) ∧
      ((chooseSegment r1 r2).prize = 0 ∨ (chooseSegment r1 r2).prize = 20 ∨
       (chooseSegment r1 r2).prize = 30)) ∧
    (u.tetoBalance = 10 → ∃ u2 : UserRecord,
      (spinTheWheel r1 r2 (some u)).2 = some u2 ∧
      (u2.tetoBalance = 0 ∨ u2.tetoBalance = 20 ∨ u2.tetoBalance = 30)) := by
  refine ⟨rfl, ?_, ?_, ?_⟩
  · intro hb
    have hb' : u.tetoBalance < SPIN_COST := hb
    simp [spinTheWheel, spinTheWheelTx, applyTx, hb']
  · intro hb
    have hb' : ¬ u.tetoBalance < 10 := not_lt.mpr hb
    refine ⟨by simp [spinTheWheel, spinTheWheelTx, applyTx, hb', SPIN_COST], ?_⟩
    exact chooseSegment_prize_cases r1 r2 h0 h1
  · intro hb
    have hb' : ¬ u.tetoBalance < 10 := by omega
    refine ⟨{ u with tetoBalance := u.tetoBalance - 10 + (chooseSegment r1 r2).prize },
      by simp [spinTheWheel, spinTheWheelTx, applyTx, hb', SPIN_COST], ?_⟩
    rcases chooseSegment_prize_cases r1 r2 h0 h1 with hp | hp | hp <;>
      simp [hp, hb]

/-- Witness for C4: from balance 10, a jackpot draw (`r1 = 0.95`) leaves
balance 30. -/
theorem wager_preconditions_and_balance_witness :
    ∃ u2 : UserRecord,
      (spinTheWheel (95/100) (1/2)
          (some { walletAddress := "w", nftCount := 2, tetoBalance := 10,
                  lastClaimTimestamp := 0 })).2 = some u2 ∧
      (u2.tetoBalance = 0 ∨ u2.tetoBalance = 20 ∨ u2.tetoBalance = 30) :=
  (wager_preconditions_and_balance (95/100) (1/2)
      { walletAddress := "w", nftCount := 2, tetoBalance := 10,
        lastClaimTimestamp := 0 }
      (by norm_num) (by norm_num)).2.2.2 rfl

/-- TOO_EARLY path of `claimRewards`: below one elapsed hour nothing is
written. -/
lemma claim_tooEarly_eq (uid : String) (now : Int) (c : Nat) (u : UserRecord)
    (h1 : (hourStart now - u.lastClaimTimestamp).fdiv 3600000 < 1) :
    claimRewards uid now c (some u) =
      (Except.error (HttpsErr.failedPrecondition tooEarlyMsg), some u) := by
  simp [claimRewards, claimRewardsTx, applyTx, h1]

/-- NO_REWARD path of `claimRewards`: with an elapsed hour and fresh count
0 the transaction commits the refreshed count and the advanced timestamp,
and the post-transaction stage reports the NO_REWARD failure. -/
lemma claim_noReward_eq (uid : String) (now : Int) (u : UserRecord)
    (h1 : ¬ (hourStart now - u.lastClaimTimestamp).fdiv 3600000 < 1) :
    claimRewards uid now 0 (some u) =
      (Except.error (HttpsErr.failedPrecondition noRewardMsg),
       some { walletAddress := u.walletAddress, nftCount := 0,
              tetoBalance := u.tetoBalance,
              lastClaimTimestamp := hourStart now }) := by
  by_cases hc : (0 : Nat) = u.nftCount
  · simp [claimRewards, claimRewardsTx, applyTx, h1, ← hc]
  · simp [claimRewards, claimRewardsTx, applyTx, h1, hc]

/-- C2, amended: every failing `claimRewards` or `spinTheWheel` call other
than the NO_REWARD outcome (RETRY_NEEDED, TOO_EARLY, ACCOUNT_NOT_FOUND,
INSUFFICIENT_BALANCE) leaves the stored state exactly as before the call;
the NO_REWARD outcome is caller-visible as its own typed failure and keeps
the balance and the record's existence, but commits the refreshed cached
count and advances `lastSettlement` to the current hour start. -/
theorem failures_limited_state_change (uid : String) (now : Int) (c : Nat)
    (r1 r2 : ℚ) (rec : Option UserRecord) :
    (∀ e st, claimRewards uid now c rec = (Except.error e, st) →
      (e ≠ HttpsErr.failedPrecondition noRewardMsg → st = rec) ∧
      (e = HttpsErr.failedPrecondition noRewardMsg →
        ∃ u u2 : UserRecord, rec = some u ∧ st = some u2 ∧
          u2.walletAddress = u.walletAddress ∧
          u2.tetoBalance = u.tetoBalance ∧ u2.nftCount = c ∧
          u2.lastClaimTimestamp = hourStart now)) ∧
    (∀ e st, spinTheWheel r1 r2 rec = (Except.error e, st) → st = rec) := by
  constructor
  · intro e st h
    cases rec with
    | none =>
        rw [show claimRewards uid now c none =
              (Except.error (HttpsErr.aborted retryMsg), none) from rfl] at h
        injection h with hA hB
        injection hA with hA
        subst hA
        exact ⟨fun _ => hB.symm, fun hne => absurd hne (by decide)⟩
    | some u =>
        by_cases h1 : (hourStart now - u.lastClaimTimestamp).fdiv 3600000 < 1
        · rw [claim_tooEarly_eq uid now c u h1] at h
          injection h with hA hB
          injection hA with hA
          subst hA
          exact ⟨fun _ => hB.symm, fun hne => absurd hne (by decide)⟩
        · by_cases h2 : c = 0
          · subst h2
            rw [claim_noReward_eq uid now u h1] at h
            injection h with hA hB
            injection hA with hA
            subst hA
            refine ⟨fun hne => absurd rfl hne, fun _ => ?_⟩
            exact ⟨u, _, rfl, hB.symm, rfl, rfl, rfl, rfl⟩
          · have hh : 1 ≤ (hourStart now - u.lastClaimTimestamp).fdiv 3600000 :=
              not_lt.mp h1
            have hcpos : 0 < c := Nat.pos_of_ne_zero h2
            have hpos : 0 < (hourStart now - u.lastClaimTimestamp).fdiv 3600000 * c * 10 := by
              have hc1 : (1 : Int) ≤ (c : Int) := by exact_mod_cast hcpos
              nlinarith
            have hx := claimRewardsTx_success uid now c u hcpos hh
            unfold claimRewards at h
            rw [hx] at h
            simp [applyTx, hpos] at h
  · intro e st h
    cases rec with
    | none =>
        rw [show spinTheWheel r1 r2 none =
              (Except.error (HttpsErr.notFound notFoundMsg), none) from rfl] at h
        injection h with hA hB
        exact hB.symm
    | some u =>
        by_cases hb : u.tetoBalance < 10
        · have hb' : u.tetoBalance < SPIN_COST := hb
          rw [show spinTheWheel r1 r2 (some u) =
                (Except.error (HttpsErr.failedPrecondition insufficientMsg), some u) from by
              simp [spinTheWheel, spinTheWheelTx, applyTx, hb']] at h
          injection h with hA hB
          exact hB.symm
        · have hb' : ¬ u.tetoBalance < SPIN_COST := hb
          rw [show spinTheWheel r1 r2 (some u) =
                (Except.ok ((chooseSegment r1 r2).segmentIndex, (chooseSegment r1 r2).prize),
                 some { u with tetoBalance :=
                          u.tetoBalance - SPIN_COST + (chooseSegment r1 r2).prize }) from by
              simp [spinTheWheel, spinTheWheelTx, applyTx, hb']] at h
          injection h with hA hB
          exact absurd hA (by simp)

/-- Witness for C2 amended: a TOO_EARLY failure (same hour bucket) leaves
the stored record untouched. -/
theorem failures_limited_state_change_witness :
    (claimRewards "w" 3605000 1
        (some { walletAddress := "w", nftCount := 1, tetoBalance := 5,
                lastClaimTimestamp := 3600000 })).2 =
      some { walletAddress := "w", nftCount := 1, tetoBalance := 5,
             lastClaimTimestamp := 3600000 } :=
  ((failures_limited_state_change "w" 3605000 1 0 0
      (some { walletAddress := "w", nftCount := 1, tetoBalance := 5,
              lastClaimTimestamp := 3600000 })).1
    (HttpsErr.failedPrecondition tooEarlyMsg)
    (claimRewards "w" 3605000 1
        (some { walletAddress := "w", nftCount := 1, tetoBalance := 5,
                lastClaimTimestamp := 3600000 })).2
    (by rfl)).1 (by decide)

/-- C10: the ownership oracle counts only assets whose collection address
is in the fixed six-element whitelist; the count never exceeds the single
requested page of 1000 assets, so an owner whose qualifying assets extend
past the first 1000 is under-counted (1001 qualifying assets count as
1000); and a falsy owner address, a missing or empty API key, or any
request/parse failure yields 0. -/
theorem oracle_whitelist_and_first_page (owner : String) (key : Option String)
    (owned : List Asset) (fails : Bool) :
    (WHITELISTED_COLLECTIONS.length = 6 ∧ WHITELISTED_COLLECTIONS.Nodup) ∧
    checkNftCountOnChain owner key owned fails ≤ 1000 ∧
    (∀ a : Asset, assetQualifies a = true →
      ∃ addr, collectionAddressOf a = some addr ∧
        addr ∈ WHITELISTED_COLLECTIONS) ∧
    (1000 < ((List.replicate 1001 sampleAsset).filter assetQualifies).length ∧
     checkNftCountOnChain "owner" (some "key")
        (List.replicate 1001 sampleAsset) false = 1000) ∧
    (∀ key2 owned2 fails2, checkNftCountOnChain "" key2 owned2 fails2 = 0) ∧
    (∀ owned2 fails2, checkNftCountOnChain owner none owned2 fails2 = 0) ∧
    (∀ owned2 fails2, checkNftCountOnChain owner (some "") owned2 fails2 = 0) ∧
    (∀ key2 owned2, checkNftCountOnChain owner key2 owned2 true = 0) := by
  have hq : assetQualifies sampleAsset = true := by decide
  refine ⟨⟨by decide, by decide⟩, ?_, ?_, ⟨?_, ?_⟩, ?_, ?_, ?_, ?_⟩
  · unfold checkNftCountOnChain
    have hf := List.length_filter_le assetQualifies (owned.take 1000)
    have ht : (owned.take 1000).length ≤ 1000 := by
      rw [List.length_take]
      exact min_le_left 1000 owned.length
    split_ifs <;> omega
  · intro a ha
    unfold assetQualifies at ha
    cases hm : collectionAddressOf a with
    | none => rw [hm] at ha; cases ha
    | some addr =>
        rw [hm] at ha
        simp only [Bool.and_eq_true] at ha
        refine ⟨addr, rfl, ?_⟩
        simpa using ha.2
  · rw [List.filter_replicate]
    simp only [hq, if_true, List.length_replicate]
    norm_num
  · unfold checkNftCountOnChain
    rw [if_neg (by decide), if_neg (by decide), if_neg (by decide)]
    rw [List.take_replicate, List.filter_replicate]
    simp only [hq, if_true, List.length_replicate]
    norm_num
  · intro key2 owned2 fails2
    unfold checkNftCountOnChain
    rw [if_pos rfl]
  · intro owned2 fails2
    simp [checkNftCountOnChain, jsTruthy]
  · intro owned2 fails2
    simp [checkNftCountOnChain, jsTruthy]
  · intro key2 owned2
    simp [checkNftCountOnChain]

/-- Witness for C10: the sample whitelisted asset is counted, and its
collection address is in the whitelist. -/
theorem oracle_whitelist_and_first_page_witness :
    ∃ addr, collectionAddressOf sampleAsset = some addr ∧
      addr ∈ WHITELISTED_COLLECTIONS :=
  (oracle_whitelist_and_first_page "w" (some "k") [] false).2.2.1
    sampleAsset (by decide)

end DigitalDojo
